import Mathlib

/-!
Shallow embedding of the HubSpot MCP contact server (src/index.ts).

The server registers six tool handlers (create-contact, get-contact,
search-contacts, update-contact, delete-contact, get-last-contacts) and its
`main` function duplicates the operation logic for direct command-line
invocation.  Each handler builds a property mapping or a search request,
issues exactly one remote call through the HubSpot SDK client, and maps the
response (or a thrown error) to a textual result.

Modelling conventions:
  - JavaScript objects built by conditional key assignment
    (`if (v) properties.key = v`) become lists of key/value pairs in
    insertion order; along every tool-handler path each key is assigned at
    most once, so the list is an exact model of the object.
  - `undefined`-able values become `Option`; JavaScript truthiness of an
    optional string (`undefined` and `""` are falsy) is `truthyO`.
  - A remote SDK call becomes a function argument returning
    `Except JsError response`; the `Except.error` case models a thrown error.
  - `new Date(s)` parsing and `Date.prototype.toLocaleString` are opaque
    library functions; they are passed as explicit parameters
    (`parseDate : String → Nat`, a timestamp, and `locale : Nat → String`),
    and `new Date()` is the explicit `now : Nat` parameter.
  - `JSON.stringify(props, null, 2)` is modelled with quote/backslash
    escaping only; the values reaching it are plain strings.
-/

namespace HubSpot

/-- JavaScript truthiness of an optional string: `undefined` and `""` are
falsy, every other string is truthy. -/
def truthyO : Option String → Bool
  | none => false
  | some s => !(s == "")

/-- JavaScript `x || d` for a possibly-undefined string `x`: falsy values
(`undefined`, `""`) fall back to `d`. -/
def jsOr (o : Option String) (d : String) : String :=
  match o with
  | none => d
  | some s => if s == "" then d else s

/-- JavaScript template interpolation of a possibly-undefined string:
`undefined` prints as the literal text `undefined`. -/
def jsStr : Option String → String
  | none => "undefined"
  | some s => s

/-- A thrown JavaScript error as observed by the catch blocks: only its
optional `message` property is ever read. -/
structure JsError where
  message : Option String
  deriving DecidableEq

/-- The expression `error?.message || 'Unknown error'` used by every catch
block (src/index.ts:64 and analogues). -/
def errMsg (e : JsError) : String := jsOr e.message "Unknown error"

/-- A tool handler's result: the `try` branch returns a success text, the
`catch` branch returns a failure text (src/index.ts:50-68 and analogues). -/
inductive ToolResult where
  | success (text : String)
  | failure (text : String)
  deriving DecidableEq

/-- One conditional property assignment `if (v) properties[key] = v`
(src/index.ts:42-44, 201-204): the entry is present exactly when the value
is truthy. -/
def propEntry (key : String) (o : Option String) : List (String × String) :=
  if truthyO o then [(key, o.getD "")] else []

/-- Property mapping built by the create-contact tool handler
(src/index.ts:38-44): `email` always, optional fields only when truthy. -/
def createProperties (email : String) (firstName lastName phone : Option String) :
    List (String × String) :=
  [("email", email)] ++ propEntry "firstname" firstName
    ++ propEntry "lastname" lastName ++ propEntry "phone" phone

/-- Property mapping built by the update-contact tool handler
(src/index.ts:199-204): starts empty, each field only when truthy. -/
def updateProperties (email firstName lastName phone : Option String) :
    List (String × String) :=
  propEntry "email" email ++ propEntry "firstname" firstName
    ++ propEntry "lastname" lastName ++ propEntry "phone" phone

/-- The single filter operator used by the code (`FilterOperatorEnum.Eq`). -/
inductive FilterOperator where
  | Eq
  deriving DecidableEq

/-- One property filter of a search request (src/index.ts:84-88). -/
structure Filter where
  propertyName : String
  operator : FilterOperator
  value : String
  deriving DecidableEq

/-- One filter group of a search request (src/index.ts:82-90). -/
structure FilterGroup where
  filters : List Filter
  deriving DecidableEq

/-- The search request shape passed to `searchApi.doSearch`
(src/index.ts:80-94, 273-278); `sorts` is absent (`none`) when the object
literal omits it. -/
structure SearchRequest where
  filterGroups : List FilterGroup
  properties : List String
  limit : Nat
  sorts : Option (List String)
  deriving DecidableEq

/-- The positional arguments passed to `basicApi.getPage`
(src/index.ts:143-150). -/
structure GetPageArgs where
  limit : Nat
  after : Option String
  properties : List String
  propertiesWithHistory : Option (List String)
  associations : Option (List String)
  archived : Bool
  deriving DecidableEq

/-- A remote CRM call issued through the HubSpot client. -/
inductive RemoteCall where
  | create (properties : List (String × String))
  | search (request : SearchRequest)
  | getPage (args : GetPageArgs)
  | update (contactId : String) (properties : List (String × String))
  | archive (contactId : String)
  deriving DecidableEq

/-- Search request built by the get-contact tool handler
(src/index.ts:80-94): one equality filter on `email`, limit 1, no sorts. -/
def getContactSearchRequest (email : String) : SearchRequest :=
  { filterGroups :=
      [{ filters := [{ propertyName := "email", operator := FilterOperator.Eq, value := email }] }],
    properties := ["email", "firstname", "lastname", "phone"],
    limit := 1,
    sorts := none }

/-- The property list requested by search-contacts and get-last-contacts
(src/index.ts:141, 271). -/
def pageProperties : List String :=
  ["firstname", "lastname", "email", "company", "phone", "createdate"]

/-- The constant `limit` of the search-contacts handler (src/index.ts:140). -/
def searchContactsLimit : Nat := 10

/-- The constant `limit` of the get-last-contacts handler (src/index.ts:270). -/
def getLastLimit : Nat := 2

/-- The `getPage` arguments built by the search-contacts tool handler
(src/index.ts:143-150); the `query` input is never consulted. -/
def toolSearchPageArgs (query : Option String) : GetPageArgs :=
  { limit := searchContactsLimit, after := none, properties := pageProperties,
    propertiesWithHistory := none, associations := none, archived := false }

/-- Search request built by the get-last-contacts tool handler
(src/index.ts:273-278): no filter groups, limit 2, sorts `["createdate"]`. -/
def getLastSearchRequest : SearchRequest :=
  { filterGroups := [], properties := pageProperties, limit := getLastLimit,
    sorts := some ["createdate"] }

/-- The remote call issued by the create-contact tool handler. -/
def toolCreateIssued (email : String) (firstName lastName phone : Option String) : RemoteCall :=
  RemoteCall.create (createProperties email firstName lastName phone)

/-- The remote call issued by the update-contact tool handler. -/
def toolUpdateIssued (contactId : String) (email firstName lastName phone : Option String) :
    RemoteCall :=
  RemoteCall.update contactId (updateProperties email firstName lastName phone)

/-- The remote call issued by the delete-contact tool handler
(src/index.ts:240). -/
def toolDeleteIssued (contactId : String) : RemoteCall :=
  RemoteCall.archive contactId

/-- The response of `basicApi.create`: only its `id` is read. -/
structure CreateResponse where
  id : String
  deriving DecidableEq

/-- A contact record's `properties` object as returned by the CRM; any
property may be absent. -/
structure ContactProps where
  email : Option String := none
  firstname : Option String := none
  lastname : Option String := none
  phone : Option String := none
  createdate : Option String := none
  deriving DecidableEq

/-- A contact record as returned by the CRM. -/
structure ContactRecord where
  id : String
  properties : ContactProps
  deriving DecidableEq

/-- The response of `searchApi.doSearch` / `basicApi.getPage`: a results
array of contact records. -/
structure SearchResponse where
  results : List ContactRecord
  deriving DecidableEq

/-- Quote/backslash escaping for the JSON.stringify model. -/
def jsonEscapeChar (c : Char) : String :=
  if c = '\\' then "\\\\" else if c = '"' then "\\\"" else String.singleton c

/-- Quote/backslash escaping of a string for the JSON.stringify model. -/
def jsonEscape (s : String) : String :=
  String.join (s.toList.map jsonEscapeChar)

/-- `JSON.stringify(props, null, 2)` on a flat string-to-string object
(src/index.ts:214). -/
def jsonStringify2 (props : List (String × String)) : String :=
  match props with
  | [] => "\x7b\x7d"
  | _ =>
    "\x7b\n"
      ++ String.intercalate ",\n"
        (props.map (fun p => "  \"" ++ jsonEscape p.1 ++ "\": \"" ++ jsonEscape p.2 ++ "\""))
      ++ "\n\x7d"

/-- The per-contact formatter shared verbatim by the search-contacts handler
(src/index.ts:152-162) and the get-last-contacts handler
(src/index.ts:282-292): the six lines later joined with a newline.
`createDate` is `new Date(props.createdate)` when `createdate` is truthy and
`new Date()` (the current time `now`) otherwise. -/
def formatContactLines (now : Nat) (parseDate : String → Nat) (locale : Nat → String)
    (contact : ContactRecord) : List String :=
  let props := contact.properties
  let createDate : Nat :=
    if truthyO props.createdate then parseDate (props.createdate.getD "") else now
  ["Contact ID: " ++ contact.id,
   "Name: " ++ jsOr props.firstname "" ++ " " ++ jsOr props.lastname "",
   "Email: " ++ jsOr props.email "N/A",
   "Phone: " ++ jsOr props.phone "N/A",
   "Created: " ++ locale createDate,
   "---"]

/-- One contact's formatted text block: the lines joined with `\n`
(src/index.ts:155-162). -/
def formatContact (now : Nat) (parseDate : String → Nat) (locale : Nat → String)
    (contact : ContactRecord) : String :=
  String.intercalate "\n" (formatContactLines now parseDate locale contact)

/-- The create-contact tool handler (src/index.ts:36-69). -/
def createContactHandler (email : String) (firstName lastName phone : Option String)
    (remote : List (String × String) → Except JsError CreateResponse) : ToolResult :=
  let properties := createProperties email firstName lastName phone
  match remote properties with
  | Except.ok response =>
    ToolResult.success ("Contact created successfully:\nID: " ++ response.id
      ++ "\nEmail: " ++ email ++ "\nName: " ++ jsOr firstName "" ++ " " ++ jsOr lastName "")
  | Except.error e => ToolResult.failure ("Failed to create contact: " ++ errMsg e)

/-- The found-contact text of the get-contact handler (src/index.ts:114). -/
def contactFoundText (contact : ContactRecord) : String :=
  "Contact found:\nID: " ++ contact.id
    ++ "\nEmail: " ++ jsStr contact.properties.email
    ++ "\nName: " ++ jsOr contact.properties.firstname "" ++ " " ++ jsOr contact.properties.lastname ""
    ++ "\nPhone: " ++ jsOr contact.properties.phone "N/A"

/-- The get-contact tool handler (src/index.ts:78-129): empty results give
the not-found success text, otherwise `results[0]` is formatted. -/
def getContactHandler (email : String)
    (remote : SearchRequest → Except JsError SearchResponse) : ToolResult :=
  match remote (getContactSearchRequest email) with
  | Except.ok searchResponse =>
    match searchResponse.results with
    | [] => ToolResult.success ("No contact found with email: " ++ email)
    | contact :: _ => ToolResult.success (contactFoundText contact)
  | Except.error e => ToolResult.failure ("Failed to get contact: " ++ errMsg e)

/-- The search-contacts tool handler (src/index.ts:138-184). -/
def searchContactsHandler (query : Option String) (now : Nat) (parseDate : String → Nat)
    (locale : Nat → String)
    (remote : GetPageArgs → Except JsError SearchResponse) : ToolResult :=
  match remote (toolSearchPageArgs query) with
  | Except.ok response =>
    ToolResult.success ("Last " ++ toString searchContactsLimit ++ " contacts:\n\n"
      ++ String.intercalate "\n\n" (response.results.map (formatContact now parseDate locale)))
  | Except.error e => ToolResult.failure ("Failed to search contacts: " ++ errMsg e)

/-- The update-contact tool handler (src/index.ts:197-229). -/
def updateContactHandler (contactId : String) (email firstName lastName phone : Option String)
    (remote : String → List (String × String) → Except JsError Unit) : ToolResult :=
  let properties := updateProperties email firstName lastName phone
  match remote contactId properties with
  | Except.ok _ =>
    ToolResult.success ("Contact updated successfully:\nID: " ++ contactId
      ++ "\nUpdated Properties: " ++ jsonStringify2 properties)
  | Except.error e => ToolResult.failure ("Failed to update contact: " ++ errMsg e)

/-- The delete-contact tool handler (src/index.ts:238-260). -/
def deleteContactHandler (contactId : String)
    (remote : String → Except JsError Unit) : ToolResult :=
  match remote contactId with
  | Except.ok _ =>
    ToolResult.success ("Contact with ID " ++ contactId ++ " was successfully deleted.")
  | Except.error e => ToolResult.failure ("Failed to delete contact: " ++ errMsg e)

/-- The get-last-contacts tool handler (src/index.ts:268-314). -/
def getLastContactsHandler (now : Nat) (parseDate : String → Nat) (locale : Nat → String)
    (remote : SearchRequest → Except JsError SearchResponse) : ToolResult :=
  match remote getLastSearchRequest with
  | Except.ok response =>
    ToolResult.success ("Last " ++ toString getLastLimit
      ++ " contacts (sorted by creation date):\n\n"
      ++ String.intercalate "\n\n" (response.results.map (formatContact now parseDate locale)))
  | Except.error e => ToolResult.failure ("Failed to get last contacts: " ++ errMsg e)

/-- Property mapping built by the create-contact CLI branch
(src/index.ts:338-344); the source duplicates the tool handler's code, so
the definition is duplicated here as well. -/
def mainCreateProperties (email : String) (firstName lastName phone : Option String) :
    List (String × String) :=
  [("email", email)] ++ propEntry "firstname" firstName
    ++ propEntry "lastname" lastName ++ propEntry "phone" phone

/-- First usage line printed by the create-contact CLI branch
(src/index.ts:332). -/
def createUsageLine1 : String :=
  "Usage: node build/index.js create-contact [EMAIL] [FIRSTNAME] [LASTNAME] [PHONE]"

/-- Second usage line printed by the create-contact CLI branch
(src/index.ts:333). -/
def createUsageLine2 : String :=
  "Example: node build/index.js create-contact john@example.com John Doe +1234567890"

/-- The observable outcome of one CLI branch: lines printed to stdout and
stderr, the exit status, and the remote calls issued. -/
structure CliOutcome where
  stdout : List String
  stderr : List String
  exitCode : Nat
  calls : List RemoteCall
  deriving DecidableEq

/-- The create-contact CLI branch of `main` (src/index.ts:325-355):
positional arguments `[EMAIL] [FIRSTNAME] [LASTNAME] [PHONE]`; a falsy email
prints the usage lines to stderr and exits with status 1 before any remote
call. -/
def mainCreateBranch (args : List String)
    (remote : List (String × String) → Except JsError CreateResponse) : CliOutcome :=
  let email := args.get? 0
  let firstName := args.get? 1
  let lastName := args.get? 2
  let phone := args.get? 3
  if truthyO email = false then
    { stdout := [], stderr := [createUsageLine1, createUsageLine2], exitCode := 1, calls := [] }
  else
    let properties := mainCreateProperties (email.getD "") firstName lastName phone
    match remote properties with
    | Except.ok response =>
      { stdout := ["Contact created successfully:\nID: " ++ response.id
          ++ "\nEmail: " ++ email.getD "" ++ "\nName: " ++ jsOr firstName "" ++ " " ++ jsOr lastName ""],
        stderr := [], exitCode := 0, calls := [RemoteCall.create properties] }
    | Except.error e =>
      { stdout := [], stderr := ["Error creating contact: " ++ errMsg e],
        exitCode := 1, calls := [RemoteCall.create properties] }

/-- Search request built by the get-contact CLI branch (src/index.ts:366-380);
duplicated from the tool handler in the source. -/
def mainGetContactRequest (email : String) : SearchRequest :=
  { filterGroups :=
      [{ filters := [{ propertyName := "email", operator := FilterOperator.Eq, value := email }] }],
    properties := ["email", "firstname", "lastname", "phone"],
    limit := 1,
    sorts := none }

/-- The `getPage` arguments built by the search-contacts CLI branch
(src/index.ts:417-427); duplicated from the tool handler in the source. -/
def mainSearchPageArgs : GetPageArgs :=
  { limit := 10, after := none, properties := pageProperties,
    propertiesWithHistory := none, associations := none, archived := false }

/-- The `switch (flag)` of the update-contact CLI branch
(src/index.ts:464-477): maps a recognized flag to the property key it
assigns; unrecognized flags map to `none` and are silently ignored. -/
def updateFlagKey (flag : String) : Option String :=
  if flag = "--email" then some "email"
  else if flag = "--firstName" then some "firstname"
  else if flag = "--lastName" then some "lastname"
  else if flag = "--phone" then some "phone"
  else none

/-- The flag-parsing loop of the update-contact CLI branch
(src/index.ts:458-478): arguments are consumed in flag/value pairs; a falsy
value (missing or `""`) skips the pair; recognized flags assign their key. -/
def parseUpdateFlags : List String → List (String × String)
  | flag :: value :: rest =>
    if value = "" then parseUpdateFlags rest
    else
      match updateFlagKey flag with
      | some key => (key, value) :: parseUpdateFlags rest
      | none => parseUpdateFlags rest
  | _ => []

/-- The remote call issued by the update-contact CLI branch
(src/index.ts:446-486): `none` when the missing contact id aborts with the
usage message before any remote call. -/
def mainUpdateIssued (args : List String) : Option RemoteCall :=
  let contactId := args.head?
  let updateArgs := args.tail
  if truthyO contactId = false then none
  else some (RemoteCall.update (contactId.getD "") (parseUpdateFlags updateArgs))

/-- The remote call issued by the delete-contact CLI branch
(src/index.ts:397-413): `none` when the missing contact id aborts first. -/
def mainDeleteIssued (args : List String) : Option RemoteCall :=
  if truthyO (args.get? 0) = false then none
  else some (RemoteCall.archive ((args.get? 0).getD ""))

/-- Search request built by the get-last-contacts CLI branch
(src/index.ts:490-498); duplicated from the tool handler in the source. -/
def mainLastSearchRequest : SearchRequest :=
  { filterGroups := [], properties := pageProperties, limit := 2,
    sorts := some ["createdate"] }

/-- The CLI argument list corresponding to an update-contact tool input,
following the documented usage
`update-contact [CONTACT_ID] --email [EMAIL] --firstName [FIRSTNAME] ...`:
one flag/value pair per supplied optional field, in the tool handler's
field order. -/
def flagOpt (flag : String) : Option String → List String
  | none => []
  | some v => [flag, v]

/-- The canonical flag list for an update-contact tool input (see
`flagOpt`). -/
def canonicalUpdateFlags (email firstName lastName phone : Option String) : List String :=
  flagOpt "--email" email ++ flagOpt "--firstName" firstName
    ++ flagOpt "--lastName" lastName ++ flagOpt "--phone" phone

/-- Modelled from the spec: strip a label prefix from a line, on the
underlying character lists; `none` when the line does not start with the
label. -/
def stripLabelChars : List Char → List Char → Option (List Char)
  | [], cs => some cs
  | _ :: _, [] => none
  | l :: ls, c :: cs => if c = l then stripLabelChars ls cs else none

/-- Modelled from the spec: the round-trip re-parser of a formatted contact
block. The spec's round-trip property reads a labelled value back out of the
printed text; this finds the first line starting with the label and returns
the remainder of that line. -/
def extractField (label : String) (lines : List String) : Option String :=
  lines.findSome? (fun line =>
    (stripLabelChars label.toList line.toList).map (fun cs => String.mk cs))

/-- Modelled from the spec: splitting the printed text back into lines at
newline characters, on the underlying character list. -/
def splitNlChars : List Char → List (List Char)
  | [] => [[]]
  | c :: cs =>
    let r := splitNlChars cs
    if c = '\n' then [] :: r
    else
      match r with
      | [] => [[c]]
      | l :: ls => (c :: l) :: ls

/-- Modelled from the spec: splitting the printed text back into lines at
newline characters. -/
def splitNl (s : String) : List String :=
  (splitNlChars s.toList).map (fun cs => String.mk cs)

/-- The concrete contact record of the spec's round-trip scenario. -/
def contact42 : ContactRecord :=
  { id := "42",
    properties := { email := some "a@b.com", firstname := some "A", lastname := some "B",
                    phone := some "555", createdate := some "2024-01-01" } }

/-- A contact record whose `createdate` is present but the empty string. -/
def emptyCreatedateRecord : ContactRecord :=
  { id := "7", properties := { email := some "a@b.com", createdate := some "" } }

/-- A truthy optional string is a non-empty `some`. -/
theorem truthyO_some_of_ne {v : String} (h : v ≠ "") : truthyO (some v) = true := by
  simp [truthyO, h]

/-- An entry of `propEntry key o` carries exactly `key` and a non-empty value
that `o` supplied. -/
theorem mem_propEntry {key k v : String} {o : Option String}
    (h : (k, v) ∈ propEntry key o) : k = key ∧ o = some v ∧ v ≠ "" := by
  cases o with
  | none => simp [propEntry, truthyO] at h
  | some w =>
    by_cases hw : w = ""
    · simp [propEntry, truthyO, hw] at h
    · simp [propEntry, truthyO, hw] at h
      refine ⟨h.1, ?_, ?_⟩
      · rw [h.2]
      · rw [h.2]; exact hw

/-- One flag/value pair of the CLI update loop parses to the same entry the
tool handler's conditional assignment produces. -/
theorem parseUpdateFlags_flagOpt {flag key : String} (hk : updateFlagKey flag = some key)
    (o : Option String) (rest : List String) :
    parseUpdateFlags (flagOpt flag o ++ rest) = propEntry key o ++ parseUpdateFlags rest := by
  cases o with
  | none => simp [flagOpt, propEntry, truthyO]
  | some v =>
    by_cases hv : v = ""
    · simp [flagOpt, parseUpdateFlags, propEntry, truthyO, hv]
    · simp [flagOpt, parseUpdateFlags, propEntry, truthyO, hv, hk]

/-- The CLI flag loop on the canonical flag list rebuilds exactly the tool
handler's update property mapping. -/
theorem parseUpdateFlags_canonical (email firstName lastName phone : Option String) :
    parseUpdateFlags (canonicalUpdateFlags email firstName lastName phone)
      = updateProperties email firstName lastName phone := by
  have he : updateFlagKey "--email" = some "email" := rfl
  have hf : updateFlagKey "--firstName" = some "firstname" := rfl
  have hl : updateFlagKey "--lastName" = some "lastname" := rfl
  have hp : updateFlagKey "--phone" = some "phone" := rfl
  have h4 := parseUpdateFlags_flagOpt hp phone []
  rw [List.append_nil] at h4
  rw [canonicalUpdateFlags, List.append_assoc, List.append_assoc,
    parseUpdateFlags_flagOpt he, parseUpdateFlags_flagOpt hf, parseUpdateFlags_flagOpt hl, h4]
  simp [updateProperties, parseUpdateFlags, List.append_assoc]

/-- Claim C1: for every registered operation, the direct command-line branch
of `main` builds the same property mapping / search request and issues the
same remote CRM call as the protocol tool handler on corresponding inputs. -/
theorem cliProtocolEquivalence :
    (∀ (args : List String) (email : String)
       (remote : List (String × String) → Except JsError CreateResponse),
       args.get? 0 = some email → email ≠ "" →
       (mainCreateBranch args remote).calls
         = [toolCreateIssued email (args.get? 1) (args.get? 2) (args.get? 3)])
    ∧ (∀ email : String, mainGetContactRequest email = getContactSearchRequest email)
    ∧ (∀ query : Option String, mainSearchPageArgs = toolSearchPageArgs query)
    ∧ (∀ (contactId : String) (email firstName lastName phone : Option String),
       contactId ≠ "" →
       mainUpdateIssued (contactId :: canonicalUpdateFlags email firstName lastName phone)
         = some (toolUpdateIssued contactId email firstName lastName phone))
    ∧ (∀ (args : List String) (contactId : String),
       args.get? 0 = some contactId → contactId ≠ "" →
       mainDeleteIssued args = some (toolDeleteIssued contactId))
    ∧ mainLastSearchRequest = getLastSearchRequest := by
  refine ⟨?_, fun _ => rfl, fun _ => rfl, ?_, ?_, rfl⟩
  · intro args email remote h0 hne
    rw [List.get?_eq_getElem?] at h0
    simp only [mainCreateBranch, List.get?_eq_getElem?, h0, Option.getD_some,
      truthyO_some_of_ne hne, Bool.true_eq_false, if_false]
    split <;>
      simp [toolCreateIssued, createProperties, mainCreateProperties, List.get?_eq_getElem?]
  · intro contactId email firstName lastName phone hne
    simp [mainUpdateIssued, truthyO, hne, toolUpdateIssued, parseUpdateFlags_canonical]
  · intro args contactId h0 hne
    rw [List.get?_eq_getElem?] at h0
    simp [mainDeleteIssued, h0, truthyO, hne, toolDeleteIssued]

/-- Concrete instance of C1: the CLI create branch with a present email and
first name issues the tool handler's call, and the canonical update flag
list parses to the tool handler's mapping. -/
theorem cliProtocolEquivalenceWitness :
    (mainCreateBranch ["a@b.com", "A"] (fun _ => Except.error { message := none })).calls
      = [toolCreateIssued "a@b.com" (some "A") none none]
    ∧ mainUpdateIssued ("42" :: canonicalUpdateFlags (some "x@y.z") none none (some "555"))
      = some (toolUpdateIssued "42" (some "x@y.z") none none (some "555"))
    ∧ mainDeleteIssued ["42"] = some (toolDeleteIssued "42") :=
  ⟨cliProtocolEquivalence.1 ["a@b.com", "A"] "a@b.com" _ rfl (by decide),
   cliProtocolEquivalence.2.2.2.1 "42" (some "x@y.z") none none (some "555") (by decide),
   cliProtocolEquivalence.2.2.2.2.1 ["42"] "42" rfl (by decide)⟩

/-- Claim C2: the update-contact property mapping contains only keys whose
field was explicitly supplied; with zero optional fields the mapping is
empty and the remote update call is still issued (succeeding as a no-op). -/
theorem updatePropertiesOnlySupplied :
    (∀ (email firstName lastName phone : Option String) (k v : String),
       (k, v) ∈ updateProperties email firstName lastName phone →
       (k = "email" ∧ email = some v) ∨ (k = "firstname" ∧ firstName = some v)
         ∨ (k = "lastname" ∧ lastName = some v) ∨ (k = "phone" ∧ phone = some v))
    ∧ updateProperties none none none none = []
    ∧ (∀ (contactId : String)
         (remote : String → List (String × String) → Except JsError Unit),
       remote contactId [] = Except.ok () →
       updateContactHandler contactId none none none none remote
         = ToolResult.success ("Contact updated successfully:\nID: " ++ contactId
             ++ "\nUpdated Properties: \x7b\x7d")) := by
  refine ⟨?_, rfl, ?_⟩
  · intro email firstName lastName phone k v h
    simp only [updateProperties, List.mem_append] at h
    rcases h with ((h | h) | h) | h
    · exact Or.inl ⟨(mem_propEntry h).1, (mem_propEntry h).2.1⟩
    · exact Or.inr (Or.inl ⟨(mem_propEntry h).1, (mem_propEntry h).2.1⟩)
    · exact Or.inr (Or.inr (Or.inl ⟨(mem_propEntry h).1, (mem_propEntry h).2.1⟩))
    · exact Or.inr (Or.inr (Or.inr ⟨(mem_propEntry h).1, (mem_propEntry h).2.1⟩))
  · intro contactId remote h
    simp [updateContactHandler, updateProperties, propEntry, truthyO, h, jsonStringify2,
      String.append_assoc]

/-- Concrete instance of C2: a supplied email is the only possible origin of
the `email` key, and the zero-field update still issues and succeeds. -/
theorem updatePropertiesOnlySuppliedWitness :
    ((("email" : String) = "email" ∧ (some "x" : Option String) = some "x")
       ∨ (("email" : String) = "firstname" ∧ (none : Option String) = some "x")
       ∨ (("email" : String) = "lastname" ∧ (none : Option String) = some "x")
       ∨ (("email" : String) = "phone" ∧ (none : Option String) = some "x"))
    ∧ updateContactHandler "42" none none none none (fun _ _ => Except.ok ())
      = ToolResult.success "Contact updated successfully:\nID: 42\nUpdated Properties: \x7b\x7d" :=
  ⟨updatePropertiesOnlySupplied.1 (some "x") none none none "email" "x" (by decide),
   updatePropertiesOnlySupplied.2.2 "42" _ rfl⟩

/-- Claim C3: a zero-result remote response is a success, not a failure:
get-contact answers with the not-found text, and the two list operations
answer with a success result holding an empty formatted list. -/
theorem zeroResultsIsSuccess :
    (∀ (email : String) (remote : SearchRequest → Except JsError SearchResponse),
       remote (getContactSearchRequest email) = Except.ok { results := [] } →
       getContactHandler email remote
         = ToolResult.success ("No contact found with email: " ++ email))
    ∧ (∀ (query : Option String) (now : Nat) (parseDate : String → Nat) (locale : Nat → String)
         (remote : GetPageArgs → Except JsError SearchResponse),
       remote (toolSearchPageArgs query) = Except.ok { results := [] } →
       searchContactsHandler query now parseDate locale remote
         = ToolResult.success "Last 10 contacts:\n\n")
    ∧ (∀ (now : Nat) (parseDate : String → Nat) (locale : Nat → String)
         (remote : SearchRequest → Except JsError SearchResponse),
       remote getLastSearchRequest = Except.ok { results := [] } →
       getLastContactsHandler now parseDate locale remote
         = ToolResult.success "Last 2 contacts (sorted by creation date):\n\n") := by
  refine ⟨?_, ?_, ?_⟩
  · intro email remote h
    unfold getContactHandler
    rw [h]
  · intro query now parseDate locale remote h
    unfold searchContactsHandler
    rw [h]
    rfl
  · intro now parseDate locale remote h
    unfold getLastContactsHandler
    rw [h]
    rfl

/-- Concrete instance of C3: each of the three handlers on a zero-result
remote returns the stated success text. -/
theorem zeroResultsIsSuccessWitness :
    getContactHandler "nobody@example.com" (fun _ => Except.ok { results := [] })
      = ToolResult.success "No contact found with email: nobody@example.com"
    ∧ searchContactsHandler none 0 (fun _ => 0) (fun n => toString n)
        (fun _ => Except.ok { results := [] })
      = ToolResult.success "Last 10 contacts:\n\n"
    ∧ getLastContactsHandler 0 (fun _ => 0) (fun n => toString n)
        (fun _ => Except.ok { results := [] })
      = ToolResult.success "Last 2 contacts (sorted by creation date):\n\n" :=
  ⟨zeroResultsIsSuccess.1 "nobody@example.com" _ rfl,
   zeroResultsIsSuccess.2.1 none 0 _ _ _ rfl,
   zeroResultsIsSuccess.2.2 0 _ _ _ rfl⟩

/-- Claim C4: every search-contacts invocation issues the same page-fetch
request with limit exactly 10, independent of the query argument. -/
theorem searchPageRequestConstant :
    (∀ query1 query2 : Option String, toolSearchPageArgs query1 = toolSearchPageArgs query2)
    ∧ ∀ query : Option String, (toolSearchPageArgs query).limit = 10 :=
  ⟨fun _ _ => rfl, fun _ => rfl⟩

/-- Claim C5: every tool handler catches a remote error and returns a
failure result instead of rethrowing, and an error without a message
produces the literal fallback text `Unknown error`. -/
theorem remoteErrorsCaught :
    (∀ (email : String) (firstName lastName phone : Option String)
       (remote : List (String × String) → Except JsError CreateResponse) (e : JsError),
       remote (createProperties email firstName lastName phone) = Except.error e →
       createContactHandler email firstName lastName phone remote
         = ToolResult.failure ("Failed to create contact: " ++ errMsg e))
    ∧ (∀ (email : String) (remote : SearchRequest → Except JsError SearchResponse) (e : JsError),
       remote (getContactSearchRequest email) = Except.error e →
       getContactHandler email remote
         = ToolResult.failure ("Failed to get contact: " ++ errMsg e))
    ∧ (∀ (query : Option String) (now : Nat) (parseDate : String → Nat) (locale : Nat → String)
         (remote : GetPageArgs → Except JsError SearchResponse) (e : JsError),
       remote (toolSearchPageArgs query) = Except.error e →
       searchContactsHandler query now parseDate locale remote
         = ToolResult.failure ("Failed to search contacts: " ++ errMsg e))
    ∧ (∀ (contactId : String) (email firstName lastName phone : Option String)
         (remote : String → List (String × String) → Except JsError Unit) (e : JsError),
       remote contactId (updateProperties email firstName lastName phone) = Except.error e →
       updateContactHandler contactId email firstName lastName phone remote
         = ToolResult.failure ("Failed to update contact: " ++ errMsg e))
    ∧ (∀ (contactId : String) (remote : String → Except JsError Unit) (e : JsError),
       remote contactId = Except.error e →
       deleteContactHandler contactId remote
         = ToolResult.failure ("Failed to delete contact: " ++ errMsg e))
    ∧ (∀ (now : Nat) (parseDate : String → Nat) (locale : Nat → String)
         (remote : SearchRequest → Except JsError SearchResponse) (e : JsError),
       remote getLastSearchRequest = Except.error e →
       getLastContactsHandler now parseDate locale remote
         = ToolResult.failure ("Failed to get last contacts: " ++ errMsg e))
    ∧ ∀ e : JsError, e.message = none → errMsg e = "Unknown error" := by
  refine ⟨?_, ?_, ?_, ?_, ?_, ?_, ?_⟩
  · intro email firstName lastName phone remote e h
    simp [createContactHandler, h]
  · intro email remote e h
    simp [getContactHandler, h]
  · intro query now parseDate locale remote e h
    simp [searchContactsHandler, h]
  · intro contactId email firstName lastName phone remote e h
    simp [updateContactHandler, h]
  · intro contactId remote e h
    simp [deleteContactHandler, h]
  · intro now parseDate locale remote e h
    simp [getLastContactsHandler, h]
  · intro e h
    simp [errMsg, jsOr, h]

/-- Concrete instance of C5: a message-less error yields the failure result
with the `Unknown error` fallback. -/
theorem remoteErrorsCaughtWitness :
    createContactHandler "a@b.com" none none none (fun _ => Except.error { message := none })
      = ToolResult.failure "Failed to create contact: Unknown error"
    ∧ errMsg { message := none } = "Unknown error" :=
  ⟨remoteErrorsCaught.1 "a@b.com" none none none _ { message := none } rfl,
   remoteErrorsCaught.2.2.2.2.2.2 { message := none } rfl⟩

/-- Claim C6: the get-last-contacts search request has no filter groups,
limit exactly 2, and the creation-date sort specification (`["createdate"]`,
whose direction is the remote default, ascending). -/
theorem lastContactsRequestShape :
    getLastSearchRequest.filterGroups = [] ∧ getLastSearchRequest.limit = 2
      ∧ getLastSearchRequest.sorts = some ["createdate"] :=
  ⟨rfl, rfl, rfl⟩

/-- Claim C7: the create-contact CLI branch with no email argument prints
the two usage lines to stderr, exits with status 1, and issues no remote
call, whatever the remote would have answered. -/
theorem cliCreateMissingEmailUsage :
    ∀ remote : List (String × String) → Except JsError CreateResponse,
      mainCreateBranch [] remote
        = { stdout := [], stderr := [createUsageLine1, createUsageLine2],
            exitCode := 1, calls := [] } :=
  fun _ => rfl

/-- Claim C8 counterexample: a record whose `createdate` is present but
empty is rendered with the current time (`locale now`, here `"Created: 0"`),
not with the parsed date (`locale (parseDate "")`, here `"Created: 1"`), so
presence alone does not imply the date is parsed. -/
theorem createdateEmptyCounterexample :
    emptyCreatedateRecord.properties.createdate.isSome = true
    ∧ formatContactLines 0 (fun _ => 1) (fun n => toString n) emptyCreatedateRecord
        = ["Contact ID: 7", "Name:  ", "Email: a@b.com", "Phone: N/A", "Created: 0", "---"]
    ∧ "Created: 1" ∉ formatContactLines 0 (fun _ => 1) (fun n => toString n)
        emptyCreatedateRecord := by
  refine ⟨rfl, ?_, ?_⟩ <;> decide

/-- Claim C8 (amended): if `createdate` is present and non-empty it is
parsed and rendered with the locale formatter; if it is absent or the empty
string, the current time at formatting time is rendered instead. -/
theorem createdateRenderAmended :
    ∀ (now : Nat) (parseDate : String → Nat) (locale : Nat → String) (contact : ContactRecord),
      (∀ s : String, contact.properties.createdate = some s → s ≠ "" →
        ("Created: " ++ locale (parseDate s)) ∈ formatContactLines now parseDate locale contact)
      ∧ (contact.properties.createdate = none →
        ("Created: " ++ locale now) ∈ formatContactLines now parseDate locale contact)
      ∧ (contact.properties.createdate = some "" →
        ("Created: " ++ locale now) ∈ formatContactLines now parseDate locale contact) := by
  intro now parseDate locale contact
  refine ⟨?_, ?_, ?_⟩
  · intro s hs hne
    simp [formatContactLines, hs, truthyO, hne]
  · intro h
    simp [formatContactLines, h, truthyO]
  · intro h
    simp [formatContactLines, h, truthyO]

/-- Concrete instance of the amended C8: a non-empty `createdate` renders
the parsed timestamp, an absent one renders the current time. -/
theorem createdateRenderAmendedWitness :
    ("Created: 5" ∈ formatContactLines 0 (fun _ => 5) (fun n => toString n)
        { id := "1", properties := { createdate := some "2024-01-01" } })
    ∧ ("Created: 0" ∈ formatContactLines 0 (fun _ => 5) (fun n => toString n)
        { id := "1", properties := {} }) :=
  ⟨(createdateRenderAmended 0 (fun _ => 5) (fun n => toString n)
      { id := "1", properties := { createdate := some "2024-01-01" } }).1 "2024-01-01" rfl
      (by decide),
   (createdateRenderAmended 0 (fun _ => 5) (fun n => toString n)
      { id := "1", properties := {} }).2.1 rfl⟩

/-- Claim C9: formatting the spec's literal contact (id 42) produces a block
containing the four labelled lines, and re-parsing the printed text recovers
identifier, email, first+last name, and phone verbatim. -/
theorem formatterRoundTrip42 :
    ("Contact ID: 42"
        ∈ splitNl (formatContact 0 (fun _ => 0) (fun n => toString n) contact42))
    ∧ ("Name: A B"
        ∈ splitNl (formatContact 0 (fun _ => 0) (fun n => toString n) contact42))
    ∧ ("Email: a@b.com"
        ∈ splitNl (formatContact 0 (fun _ => 0) (fun n => toString n) contact42))
    ∧ ("Phone: 555"
        ∈ splitNl (formatContact 0 (fun _ => 0) (fun n => toString n) contact42))
    ∧ extractField "Contact ID: "
        (splitNl (formatContact 0 (fun _ => 0) (fun n => toString n) contact42)) = some "42"
    ∧ extractField "Name: "
        (splitNl (formatContact 0 (fun _ => 0) (fun n => toString n) contact42)) = some "A B"
    ∧ extractField "Email: "
        (splitNl (formatContact 0 (fun _ => 0) (fun n => toString n) contact42))
        = some "a@b.com"
    ∧ extractField "Phone: "
        (splitNl (formatContact 0 (fun _ => 0) (fun n => toString n) contact42))
        = some "555" := by
  decide

/-- Claim C10: an optional field supplied as the empty string is treated
exactly like an absent field in create-contact and update-contact, in both
the tool handlers and the CLI branches, so these operations never set a
property to the empty string. -/
theorem emptyStringTreatedAsAbsent :
    (∀ (email : String) (firstName lastName phone : Option String),
       createProperties email (some "") lastName phone = createProperties email none lastName phone
       ∧ createProperties email firstName (some "") phone
           = createProperties email firstName none phone
       ∧ createProperties email firstName lastName (some "")
           = createProperties email firstName lastName none
       ∧ mainCreateProperties email (some "") lastName phone
           = mainCreateProperties email none lastName phone
       ∧ mainCreateProperties email firstName (some "") phone
           = mainCreateProperties email firstName none phone
       ∧ mainCreateProperties email firstName lastName (some "")
           = mainCreateProperties email firstName lastName none)
    ∧ (∀ email firstName lastName phone : Option String,
       updateProperties (some "") firstName lastName phone
           = updateProperties none firstName lastName phone
       ∧ updateProperties email (some "") lastName phone
           = updateProperties email none lastName phone
       ∧ updateProperties email firstName (some "") phone
           = updateProperties email firstName none phone
       ∧ updateProperties email firstName lastName (some "")
           = updateProperties email firstName lastName none)
    ∧ (∀ (flag : String) (rest : List String),
       parseUpdateFlags (flag :: "" :: rest) = parseUpdateFlags rest)
    ∧ (∀ (email firstName lastName phone : Option String) (k v : String),
       (k, v) ∈ updateProperties email firstName lastName phone → v ≠ "")
    ∧ (∀ (email : String) (firstName lastName phone : Option String) (k v : String),
       (k, v) ∈ createProperties email firstName lastName phone → k ≠ "email" → v ≠ "") := by
  refine ⟨fun _ _ _ _ => ⟨rfl, rfl, rfl, rfl, rfl, rfl⟩,
    fun _ _ _ _ => ⟨rfl, rfl, rfl, rfl⟩, ?_, ?_, ?_⟩
  · intro flag rest
    simp [parseUpdateFlags]
  · intro email firstName lastName phone k v h
    simp only [updateProperties, List.mem_append] at h
    rcases h with ((h | h) | h) | h <;> exact (mem_propEntry h).2.2
  · intro email firstName lastName phone k v h hk
    simp only [createProperties, List.mem_append, List.mem_singleton] at h
    rcases h with ((h | h) | h) | h
    · exact absurd (congrArg Prod.fst h) hk
    · exact (mem_propEntry h).2.2
    · exact (mem_propEntry h).2.2
    · exact (mem_propEntry h).2.2

/-- Concrete instance of C10: a value placed into the update mapping is
never empty, and an empty CLI flag value is skipped. -/
theorem emptyStringTreatedAsAbsentWitness :
    ("x" : String) ≠ ""
    ∧ parseUpdateFlags ["--email", "", "--phone", "9"] = parseUpdateFlags ["--phone", "9"] :=
  ⟨emptyStringTreatedAsAbsent.2.2.2.1 (some "x") none none none "email" "x" (by decide),
   emptyStringTreatedAsAbsent.2.2.1 "--email" ["--phone", "9"]⟩

end HubSpot
